import Mathlib

/-!
Verification development for the FermentationController core
(profiles.py, pid_controller.py, app.py), shallowly embedded over ℚ.
Impure inputs (wall-clock time, sensor registers, parsed timestamps) are
passed as explicit arguments; object state is passed and returned
explicitly.
-/

/-- One step of a fermentation profile (profiles.py: the step dicts with
keys name, target_temp, duration_hours, ramp_hours). -/
structure Step where
  name : String
  target_temp : ℚ
  duration_hours : ℚ
  ramp_hours : ℚ
deriving DecidableEq

/-- Floor of a rational as an integer, computed from the reduced
numerator and denominator (the denominator is positive). -/
def ratFloor (q : ℚ) : ℤ := q.num.fdiv q.den

/-- Round-half-to-even on ℚ, the semantics of Python's builtin round
applied to an exactly representable value. -/
def pyRoundEven (q : ℚ) : ℤ :=
  let f := ratFloor q
  let r := q - f
  if r < 1/2 then f
  else if r > 1/2 then f + 1
  else if f % 2 = 0 then f else f + 1

/-- Python round(x, 1) on ℚ. -/
def pyRound1 (q : ℚ) : ℚ := (pyRoundEven (q * 10) : ℚ) / 10

/-- Python round(x, 2) on ℚ. -/
def pyRound2 (q : ℚ) : ℚ := (pyRoundEven (q * 100) : ℚ) / 100

/-- The for-loop of profiles.py calculate_current_step: walks the steps
carrying the previous list element's target_temp (Python steps[i-1]),
the enumerate index and cumulative_hours; none when the loop runs off the
end of the list. -/
def calcStepAux (elapsed : ℚ) : List Step → Option ℚ → ℕ → ℚ → Option (ℕ × ℚ × ℚ)
  | [], _, _, _ => none
  | step :: rest, prevT, i, cumulative =>
    let dur := step.duration_hours
    let ramp := step.ramp_hours
    if dur = 0 ∧ ramp = 0 then
      if elapsed ≤ cumulative then some (i, step.target_temp, 0)
      else calcStepAux elapsed rest (some step.target_temp) (i + 1) cumulative
    else
      let stepEnd := cumulative + (dur + ramp)
      if elapsed < stepEnd then
        let timeIn := elapsed - cumulative
        let remaining := stepEnd - elapsed
        if 0 < ramp ∧ timeIn < ramp then
          let prev := prevT.getD step.target_temp
          some (i, pyRound1 (prev + (step.target_temp - prev) * (timeIn / ramp)), remaining)
        else
          some (i, step.target_temp, remaining)
      else calcStepAux elapsed rest (some step.target_temp) (i + 1) stepEnd

/-- profiles.py calculate_current_step, with the elapsed hours since the
profile start passed explicitly (the source computes them from the parsed
start timestamp and the current UTC time). Returns
(step_index, target_temperature, time_remaining_in_step_hours), or none
for an empty step list (the source's (None, None, None)). -/
def calculate_current_step (steps : List Step) (elapsed : ℚ) : Option (ℕ × ℚ × ℚ) :=
  if steps.isEmpty then none
  else
    match calcStepAux elapsed steps none 0 0 with
    | some r => some r
    | none =>
      match steps.getLast? with
      | some last => some (steps.length - 1, last.target_temp, 0)
      | none => none

/-- The steps of the C1 test profile [{Pitch,18,0,0},{Primary,18,72,0},{Crash,2,48,12}]. -/
def aleTestSteps : List Step :=
  [⟨"Pitch", 18, 0, 0⟩, ⟨"Primary", 18, 72, 0⟩, ⟨"Crash", 2, 48, 12⟩]

/-- State of a PIDController (pid_controller.py): integral, last_error,
last_time; last_time is none before the first compute call. -/
structure PIDState where
  integral : ℚ
  last_error : ℚ
  last_time : Option ℚ
deriving DecidableEq

/-- PIDController.reset / the freshly constructed controller state. -/
def pidReset : PIDState := ⟨0, 0, none⟩

/-- PIDController.compute (pid_controller.py lines 31-79), with the wall
clock reading time.time() passed as current_time. Returns the output and
the updated controller state. -/
def pidCompute (Kp Ki Kd min_output max_output : ℚ)
    (setpoint current_temp current_time : ℚ) (s : PIDState) : ℚ × PIDState :=
  let dt : ℚ :=
    match s.last_time with
    | none => 1
    | some t => if current_time - t ≤ 0 then 1 else current_time - t
  let error := setpoint - current_temp
  let P := Kp * error
  let integral1 := s.integral + error * dt
  let max_integral := if Ki ≠ 0 then (max_output - min_output) / (2 * Ki) else 1000
  let integral2 := max (-max_integral) (min max_integral integral1)
  let I := Ki * integral2
  let D := if 0 < dt then Kd * (error - s.last_error) / dt else 0
  let output := P + I + D
  (max min_output (min max_output output), ⟨integral2, error, some current_time⟩)

/-- One compute call folded for pidRun: the call c is
(setpoint, current_temp, current_time). -/
def pidStep (Kp Ki Kd min_output max_output : ℚ) (s : PIDState) (c : ℚ × ℚ × ℚ) : PIDState :=
  (pidCompute Kp Ki Kd min_output max_output c.1 c.2.1 c.2.2 s).2

/-- The controller state after a sequence of compute calls from the reset
state. -/
def pidRun (Kp Ki Kd min_output max_output : ℚ) (calls : List (ℚ × ℚ × ℚ)) : PIDState :=
  calls.foldl (pidStep Kp Ki Kd min_output max_output) pidReset

/-- Python float modulo a % b = a - b * floor(a / b) (result carries the
sign of b). -/
def pymod (a b : ℚ) : ℚ := a - b * (ratFloor (a / b) : ℚ)

/-- DutyCycleManager.should_be_on (pid_controller.py lines 102-121), with
the manager's cycle_seconds and cycle_start state and the wall clock
reading passed explicitly. -/
def should_be_on (cycle_seconds cycle_start duty_percent now : ℚ) : Bool :=
  if duty_percent ≤ 0 then false
  else if 100 ≤ duty_percent then true
  else
    let elapsed := pymod (now - cycle_start) cycle_seconds
    let on_time := cycle_seconds * (duty_percent / 100)
    decide (elapsed < on_time)

/-- State of a DutyCycleManager object. -/
structure DutyState where
  cycle_seconds : ℚ
  cycle_start : ℚ
deriving DecidableEq

/-- The should_be_on method as a state transformer: it reads the manager
state and returns it untouched (the source method mutates nothing). -/
def dutyCall (s : DutyState) (duty_percent now : ℚ) : Bool × DutyState :=
  (should_be_on s.cycle_seconds s.cycle_start duty_percent now, s)

/-- State of the ChillerController (pid_controller.py lines 128-165). -/
structure ChillerState where
  is_on : Bool
  last_state_change : ℚ
deriving DecidableEq

/-- ChillerController.should_turn_on's state update, with time.time()
passed as now; the method returns the new is_on field. -/
def chillerStep (min_on_time min_off_time : ℚ)
    (current_temp target_temp hysteresis now : ℚ) (s : ChillerState) : ChillerState :=
  let time_in_state := now - s.last_state_change
  let wants_on := target_temp + hysteresis < current_temp
  let wants_off := current_temp < target_temp - hysteresis
  if s.is_on then
    if wants_off ∧ min_on_time ≤ time_in_state then ⟨false, now⟩ else s
  else
    if wants_on ∧ min_off_time ≤ time_in_state then ⟨true, now⟩ else s

/-- pid_controller.py pid_output_to_duty_cycles. -/
def pid_output_to_duty_cycles (pid_output : ℚ) : ℚ × ℚ :=
  if 0 < pid_output then (pid_output, 0)
  else if pid_output < 0 then (0, -pid_output)
  else (0, 0)

/-- Python max over a non-empty list (max([]) raises, modelled as none). -/
def pyMax : List ℚ → Option ℚ
  | [] => none
  | x :: xs => some (xs.foldl max x)

/-- Python min over a non-empty list (min([]) raises, modelled as none). -/
def pyMin : List ℚ → Option ℚ
  | [] => none
  | x :: xs => some (xs.foldl min x)

/-- The active_targets list comprehension of calculate_dynamic_glycol_target
(pid_controller.py line 206): every enumerated target whose index passes
the condition cooling_duties[i] > 0 or True; the lookup is total here via
getD, which the source's equal-length precondition makes exact. -/
def activeTargets (cooling_duties fermenter_targets : List ℚ) : List ℚ :=
  ((fermenter_targets.enum.filter
    (fun p => decide (0 < cooling_duties.getD p.1 0) || true)).map Prod.snd)

/-- pid_controller.py calculate_dynamic_glycol_target (lines 188-226);
none models the source's None return and the exception Python max raises
on an empty duty list. -/
def calculate_dynamic_glycol_target (cooling_duties fermenter_targets : List ℚ)
    (min_glycol_temp base_offset : ℚ) : Option ℚ :=
  match pyMax cooling_duties with
  | none => none
  | some max_cooling_demand =>
    match pyMin (activeTargets cooling_duties fermenter_targets) with
    | none => none
    | some lowest_target =>
      let target :=
        if max_cooling_demand = 0 then lowest_target + 5
        else if max_cooling_demand < 30 then lowest_target - 2
        else if max_cooling_demand < 70 then lowest_target - 4
        else lowest_target - base_offset
      some (max min_glycol_temp target)

/-- Status string returned by Max31865Pi.get_reading (app.py): OK,
NOT CONNECTED, or MATH ERROR. -/
inductive ReadingStatus where
  | ok
  | notConnected
  | mathError
deriving DecidableEq

/-- RTD resistance from the 16-bit raw register (app.py line 71-74):
bit 0 is the fault flag, the upper 15 bits a ratio against full scale. -/
def resistance (ref_resistor : ℚ) (raw : ℕ) : ℚ :=
  ((raw >>> 1 : ℕ) : ℚ) / 32768 * ref_resistor

/-- Appending to the collections.deque with maxlen 10: the newest 10
elements are kept, older ones fall off the front. -/
def push10 (history : List ℚ) (t : ℚ) : List ℚ :=
  let h2 := history ++ [t]
  if 10 < h2.length then h2.drop (h2.length - 10) else h2

/-- Max31865Pi.get_reading (app.py lines 55-94): the SPI exchange is
modelled by the raw register value it yields, and the Callendar-Van Dusen
inversion (a real square root on floats, app.py lines 83-86) by the given
conversion tempOfRes, whose none models the except branch (MATH ERROR);
the fault gating and the moving-average buffer around it are concrete.
Returns (temperature, status, updated history buffer). -/
def get_reading (ref_resistor : ℚ) (tempOfRes : ℚ → Option ℚ) (raw : ℕ)
    (history : List ℚ) : Option ℚ × ReadingStatus × List ℚ :=
  let has_fault := raw &&& 1
  let res := resistance ref_resistor raw
  if has_fault ≠ 0 ∨ res < 10 ∨ 400 < res then (none, ReadingStatus.notConnected, history)
  else
    match tempOfRes res with
    | none => (none, ReadingStatus.mathError, history)
    | some temp =>
      let h2 := push10 history temp
      (some (h2.sum / (h2.length : ℚ)), ReadingStatus.ok, h2)

/-- The runtime control mode of app.py (bangbang or pid). -/
inductive ControlMode where
  | bangbang
  | pid
deriving DecidableEq

/-- Per-vessel slice of the control_loop globals (app.py): last reading,
active flag, resolved target, actuator states, the vessel's PID and duty
manager state, published duties and PID output, and the profile
assignment. The assigned profile id, its looked-up step list and its
start timestamp are collapsed into an optional step list plus the elapsed
hours the tick's UTC clock yields for it. -/
structure VesselState where
  current_temp : Option ℚ
  active : Bool
  target : ℚ
  heater : Bool
  solenoid : Bool
  pid : PIDState
  duty : DutyState
  heating_duty : ℚ
  cooling_duty : ℚ
  pid_output : ℚ
  profile : Option (List Step)
  profile_elapsed : ℚ
  current_step : ℕ
  offset : ℚ
deriving DecidableEq

/-- The sensor-read phase of one control_loop tick for one vessel
(app.py lines 360-371): sensorResult is none when the vessel has no
initialized PT100 object, otherwise the (temperature, status) pair
get_reading returned. A non-OK reading clears the temperature and forces
the vessel inactive. -/
def readPhase (sensorResult : Option (Option ℚ × ReadingStatus)) (v : VesselState) : VesselState :=
  match sensorResult with
  | some (some temp, ReadingStatus.ok) => { v with current_temp := some (pyRound2 temp) }
  | some _ => { v with current_temp := none, active := false }
  | none => { v with current_temp := none, active := false }

/-- The skip branch of the per-vessel control section (app.py lines
381-389): actuators forced off; only in pid mode are the PID state and
the published duties also reset. -/
def inactiveUpdate (mode : ControlMode) (v : VesselState) : VesselState :=
  let v1 := { v with heater := false, solenoid := false }
  if mode = ControlMode.pid then
    { v1 with pid := pidReset, heating_duty := 0, cooling_duty := 0 }
  else v1

/-- The control section of one tick for one vessel (app.py lines
377-464): the skip branch for inactive or faulted vessels, otherwise
profile target resolution, the can_cool check against the glycol bath
temperature, and the pid or bangbang actuation. Returns the new vessel
state and the value this vessel appends to cooling_duties. -/
def controlPhase (mode : ControlMode) (Kp Ki Kd temp_hysteresis : ℚ)
    (glycol_temp : Option ℚ) (now : ℚ) (v : VesselState) : VesselState × ℚ :=
  match v.current_temp with
  | none => (inactiveUpdate mode v, 0)
  | some current_f_temp =>
    if v.active = false then (inactiveUpdate mode v, 0)
    else
      let resolved :=
        match v.profile with
        | none => (v.target, v.current_step, v.offset)
        | some steps =>
          match calculate_current_step steps v.profile_elapsed with
          | none => (v.target, v.current_step, v.offset)
          | some (step_idx, profile_target, _) =>
            let offset1 := if step_idx ≠ v.current_step then 0 else v.offset
            (profile_target + offset1, step_idx, offset1)
      let target_f_temp := resolved.1
      let v1 := { v with target := target_f_temp, current_step := resolved.2.1,
                         offset := resolved.2.2 }
      let can_cool : Bool :=
        match glycol_temp with
        | none => false
        | some g => decide (g < current_f_temp)
      if mode = ControlMode.pid then
        let computed := pidCompute Kp Ki Kd (-100) 100 target_f_temp current_f_temp now v1.pid
        let duties := pid_output_to_duty_cycles computed.1
        let v2 := { v1 with pid := computed.2, pid_output := computed.1,
                            heating_duty := duties.1, cooling_duty := duties.2 }
        let v3 :=
          if 0 < duties.2 ∧ can_cool then
            { v2 with
              solenoid := should_be_on v2.duty.cycle_seconds v2.duty.cycle_start duties.2 now,
              heater := false }
          else if 0 < duties.1 then
            { v2 with
              heater := should_be_on v2.duty.cycle_seconds v2.duty.cycle_start duties.1 now,
              solenoid := false }
          else { v2 with heater := false, solenoid := false }
        (v3, duties.2)
      else
        let v2 :=
          if target_f_temp + temp_hysteresis < current_f_temp ∧ can_cool then
            { v1 with solenoid := true, heater := false }
          else if current_f_temp < target_f_temp then
            { v1 with solenoid := false }
          else v1
        let v3 :=
          if current_f_temp < target_f_temp - temp_hysteresis then
            { v2 with heater := true, solenoid := false }
          else if target_f_temp < current_f_temp then
            { v2 with heater := false }
          else v2
        (v3, 0)

/-- One full control_loop tick for one vessel: the sensor-read phase
followed by the control section. -/
def vesselTick (mode : ControlMode) (Kp Ki Kd temp_hysteresis : ℚ)
    (glycol_temp : Option ℚ) (now : ℚ)
    (sensorResult : Option (Option ℚ × ReadingStatus)) (v : VesselState) : VesselState × ℚ :=
  controlPhase mode Kp Ki Kd temp_hysteresis glycol_temp now (readPhase sensorResult v)

/-- A concrete vessel used to exercise the tick at explicit inputs: it
starts active with leftover PID state from earlier control activity. -/
def exVessel : VesselState :=
  { current_temp := some 19, active := true, target := 18, heater := true,
    solenoid := false, pid := ⟨5, 3, some 2⟩, duty := ⟨60, 0⟩,
    heating_duty := 7, cooling_duty := 0, pid_output := 7,
    profile := none, profile_elapsed := 0, current_step := 0, offset := 0 }

/-- Floor through ratFloor agrees with the mathematical floor on ℚ. -/
theorem ratFloor_eq_floor (q : ℚ) : ratFloor q = ⌊q⌋ := by
  rw [ratFloor, Rat.floor_def, Int.fdiv_eq_ediv _ (by positivity)]

/-- A property that every fold step establishes holds after any fold that
starts from a state satisfying it. -/
theorem foldl_preserves {α β : Type} (P : α → Prop) (f : α → β → α)
    (hf : ∀ a b, P (f a b)) : ∀ (l : List β) (a : α), P a → P (l.foldl f a)
  | [], _, h => h
  | b :: l, a, _ => foldl_preserves P f hf l (f a b) (hf a b)

/-- The or-True filter of calculate_dynamic_glycol_target keeps every
fermenter target: activeTargets is the whole target list. -/
theorem activeTargets_eq (cooling_duties fermenter_targets : List ℚ) :
    activeTargets cooling_duties fermenter_targets = fermenter_targets := by
  simp [activeTargets, List.enum_map_snd]

/-- C1 (amended): for the profile [{Pitch,18,0,0},{Primary,18,72,0},
{Crash,2,48,12}] and a fixed start time, the evaluator returns
(step 0, target 18.0, remaining 0) at elapsed 0 hours; at elapsed
72 hours it returns (step 2, target 18.0, remaining 60) — the boundary
instant already falls into the Crash step's ramp, whose interpolated
target at ramp start equals the previous step's 18.0; target 10.0 at
elapsed 78 hours (halfway through the 12-hour ramp from 18 to 2, with 54
hours remaining); and (step 2, target 2.0, remaining 0) at elapsed 1000
hours, past the schedule end. -/
theorem profile_eval_checkpoints :
    calculate_current_step aleTestSteps 0 = some (0, 18, 0) ∧
    calculate_current_step aleTestSteps 72 = some (2, 18, 60) ∧
    calculate_current_step aleTestSteps 78 = some (2, 10, 54) ∧
    calculate_current_step aleTestSteps 1000 = some (2, 2, 0) := by
  refine ⟨?_, ?_, ?_, ?_⟩ <;>
    norm_num [calculate_current_step, calcStepAux, aleTestSteps, pyRound1, pyRoundEven, ratFloor]

/-- C1 counterexample: at elapsed exactly 72 hours the evaluator does not
return (step 1, target 18.0, remaining 0); the strict bound
elapsed < step_end walks past the Primary step at its exact end, into the
Crash step's ramp. -/
theorem profile_eval_at_72h_ne_step1 :
    calculate_current_step aleTestSteps 72 ≠ some (1, 18, 0) := by
  norm_num [calculate_current_step, calcStepAux, aleTestSteps, pyRound1, pyRoundEven, ratFloor]

/-- C7: should_be_on returns false whenever duty_percent is at most 0,
true whenever duty_percent is at least 100, and otherwise true exactly
when the elapsed position inside the repeating cycle,
(now - cycle_start) mod cycle_length, is below
cycle_length * duty_percent / 100. -/
theorem duty_should_be_on_spec (duty_percent cycle_length cycle_start now : ℚ)
    (hcl : 0 < cycle_length) :
    (duty_percent ≤ 0 → should_be_on cycle_length cycle_start duty_percent now = false) ∧
    (100 ≤ duty_percent → should_be_on cycle_length cycle_start duty_percent now = true) ∧
    (0 < duty_percent → duty_percent < 100 →
      (should_be_on cycle_length cycle_start duty_percent now = true ↔
        pymod (now - cycle_start) cycle_length < cycle_length * (duty_percent / 100))) := by
  refine ⟨fun h => by simp [should_be_on, h], fun h => ?_, fun h1 h2 => ?_⟩
  · have h0 : ¬ duty_percent ≤ 0 := by linarith
    simp [should_be_on, h0, h]
  · have h3 : ¬ duty_percent ≤ 0 := by linarith
    have h4 : ¬ 100 ≤ duty_percent := by linarith
    simp [should_be_on, h3, h4]

/-- C7 witness: with a 60-second cycle started at 0, a 40% duty and the
clock at 10 seconds the relay is on: 10 mod 60 = 10 is below 24. -/
theorem duty_should_be_on_spec_witness : should_be_on 60 0 40 10 = true := by
  rw [(duty_should_be_on_spec 40 60 0 10 (by norm_num)).2.2 (by norm_num) (by norm_num)]
  rw [show pymod (10 - 0) 60 = 10 by rw [pymod, ratFloor_eq_floor]; norm_num]
  norm_num

/-- C8: every PID compute output lies in [min_output, max_output] (so in
[-100, 100] under the defaults), and pid_output_to_duty_cycles maps an
output in [-100, 100] to heating and cooling duties each in [0, 100]
with at most one of the two nonzero: a positive output gives
(output, 0), a negative one (0, -output), zero gives (0, 0). -/
theorem pid_output_and_duty_ranges :
    (∀ (Kp Ki Kd mn mx sp ct t : ℚ) (s : PIDState), mn ≤ mx →
      mn ≤ (pidCompute Kp Ki Kd mn mx sp ct t s).1 ∧
        (pidCompute Kp Ki Kd mn mx sp ct t s).1 ≤ mx) ∧
    (∀ p : ℚ, -100 ≤ p → p ≤ 100 →
      (0 ≤ (pid_output_to_duty_cycles p).1 ∧ (pid_output_to_duty_cycles p).1 ≤ 100) ∧
      (0 ≤ (pid_output_to_duty_cycles p).2 ∧ (pid_output_to_duty_cycles p).2 ≤ 100) ∧
      ((pid_output_to_duty_cycles p).1 = 0 ∨ (pid_output_to_duty_cycles p).2 = 0) ∧
      (0 < p → pid_output_to_duty_cycles p = (p, 0)) ∧
      (p < 0 → pid_output_to_duty_cycles p = (0, -p)) ∧
      (p = 0 → pid_output_to_duty_cycles p = (0, 0))) := by
  constructor
  · intro Kp Ki Kd mn mx sp ct t s hmn
    refine ⟨le_max_left _ _, max_le hmn (min_le_left _ _)⟩
  · intro p hp1 hp2
    unfold pid_output_to_duty_cycles
    split_ifs with h1 h2
    · exact ⟨⟨by linarith, by linarith⟩, ⟨le_refl 0, by norm_num⟩, Or.inr rfl,
        fun _ => rfl, fun hc => absurd h1 (by linarith),
        fun hc => absurd h1 (by rw [hc]; exact lt_irrefl 0)⟩
    · exact ⟨⟨le_refl 0, by norm_num⟩,
        ⟨by show (0:ℚ) ≤ -p; linarith, by show -p ≤ (100:ℚ); linarith⟩, Or.inl rfl,
        fun hc => absurd hc h1, fun _ => rfl,
        fun hc => absurd h2 (by rw [hc]; exact lt_irrefl 0)⟩
    · exact ⟨⟨le_refl 0, by norm_num⟩, ⟨le_refl 0, by norm_num⟩, Or.inl rfl,
        fun hc => absurd hc h1, fun hc => absurd hc h2, fun _ => rfl⟩

/-- The integral stored by a compute call is the error-accumulated value
clamped symmetrically at the anti-windup bound, for some dt. -/
theorem pidCompute_integral_eq (Kp Ki Kd mn mx sp ct t : ℚ) (s : PIDState) :
    ∃ dt : ℚ, (pidCompute Kp Ki Kd mn mx sp ct t s).2.integral =
      max (-(if Ki ≠ 0 then (mx - mn) / (2 * Ki) else 1000))
        (min (if Ki ≠ 0 then (mx - mn) / (2 * Ki) else 1000) (s.integral + (sp - ct) * dt)) :=
  ⟨(match s.last_time with
    | none => 1
    | some t0 => if t - t0 ≤ 0 then 1 else t - t0), rfl⟩

/-- A value clamped to the anti-windup band of the default [-100, 100]
output range contributes at most 100 to the output once multiplied by a
positive Ki. -/
theorem clamped_integral_mul_bound (Ki y : ℚ) (hKi : 0 < Ki) :
    |max (-((100 - -100) / (2 * Ki))) (min ((100 - -100) / (2 * Ki)) y) * Ki| ≤ 100 := by
  have hne : Ki ≠ 0 := ne_of_gt hKi
  set M : ℚ := (100 - -100) / (2 * Ki) with hM
  have hMKi : M * Ki = 100 := by
    rw [hM]; field_simp; ring
  have hM0 : 0 ≤ M := by rw [hM]; positivity
  set w : ℚ := max (-M) (min M y) with hw
  have h1 : -M ≤ w := le_max_left _ _
  have h2 : w ≤ M := max_le (by linarith) (min_le_left _ _)
  rw [abs_le]
  constructor
  · nlinarith [mul_nonneg (show (0:ℚ) ≤ w + M by linarith) hKi.le]
  · nlinarith [mul_nonneg (show (0:ℚ) ≤ M - w by linarith) hKi.le]

/-- After any single compute call with Ki positive and the default
output range [-100, 100], the clamped integral times Ki is at most 100
in absolute value. -/
theorem pidStep_integral_bound (Kp Ki Kd : ℚ) (hKi : 0 < Ki)
    (s : PIDState) (c : ℚ × ℚ × ℚ) :
    |(pidStep Kp Ki Kd (-100) 100 s c).integral * Ki| ≤ 100 := by
  obtain ⟨dt, hdt⟩ := pidCompute_integral_eq Kp Ki Kd (-100) 100 c.1 c.2.1 c.2.2 s
  rw [pidStep, hdt, if_pos (ne_of_gt hKi)]
  exact clamped_integral_mul_bound Ki _ hKi

/-- After any single compute call with Ki zero, the integral is clamped
to the fixed fallback bound 1000. -/
theorem pidStep_integral_bound_ki0 (Kp Kd : ℚ) (s : PIDState) (c : ℚ × ℚ × ℚ) :
    |(pidStep Kp 0 Kd (-100) 100 s c).integral| ≤ 1000 := by
  obtain ⟨dt, hdt⟩ := pidCompute_integral_eq Kp 0 Kd (-100) 100 c.1 c.2.1 c.2.2 s
  rw [pidStep, hdt, if_neg (by simp)]
  rw [abs_le]
  exact ⟨le_max_left _ _, max_le (by norm_num) (min_le_left _ _)⟩

/-- C2: from the reset state, for any gains with Ki positive and the
default output range [-100, 100], every sequence of compute calls leaves
the integral state with |integral * Ki| at most (100 - (-100))/2 = 100;
for Ki = 0 the integral is instead clamped to the fixed bound 1000. -/
theorem pid_antiwindup_integral_bound (Kp Kd Ki : ℚ) (calls : List (ℚ × ℚ × ℚ)) :
    (0 < Ki → |(pidRun Kp Ki Kd (-100) 100 calls).integral * Ki| ≤ (100 - -100) / 2) ∧
    (Ki = 0 → |(pidRun Kp Ki Kd (-100) 100 calls).integral| ≤ 1000) := by
  constructor
  · intro hKi
    have h100 : |(pidRun Kp Ki Kd (-100) 100 calls).integral * Ki| ≤ 100 := by
      simp only [pidRun]
      exact foldl_preserves (fun s => |s.integral * Ki| ≤ 100)
        (pidStep Kp Ki Kd (-100) 100)
        (fun s c => pidStep_integral_bound Kp Ki Kd hKi s c) calls pidReset
        (by simp [pidReset])
    linarith [h100]
  · intro hKi
    subst hKi
    simp only [pidRun]
    exact foldl_preserves (fun s => |s.integral| ≤ 1000)
      (pidStep Kp 0 Kd (-100) 100)
      (fun s c => pidStep_integral_bound_ki0 Kp Kd s c) calls pidReset
      (by simp [pidReset])

/-- C3: the chiller guard state changes ON to OFF only when the current
temperature is below target - hysteresis and at least min_on_time has
elapsed since the last state change, changes OFF to ON only when the
current temperature is above target + hysteresis and at least
min_off_time has elapsed; otherwise the state is held unchanged. Calls
arriving before both dwell times have elapsed never change the state,
and once the dwell time has elapsed a still-asserted request is honored
on the next evaluation. -/
theorem chiller_guard_dwell_and_transitions (min_on_time min_off_time ct tt hy now : ℚ)
    (s : ChillerState) :
    ((chillerStep min_on_time min_off_time ct tt hy now s).is_on ≠ s.is_on →
      (s.is_on = true → ct < tt - hy ∧ min_on_time ≤ now - s.last_state_change) ∧
      (s.is_on = false → tt + hy < ct ∧ min_off_time ≤ now - s.last_state_change)) ∧
    (s.is_on = true → ¬(ct < tt - hy ∧ min_on_time ≤ now - s.last_state_change) →
      chillerStep min_on_time min_off_time ct tt hy now s = s) ∧
    (s.is_on = false → ¬(tt + hy < ct ∧ min_off_time ≤ now - s.last_state_change) →
      chillerStep min_on_time min_off_time ct tt hy now s = s) ∧
    (now - s.last_state_change < min_on_time → now - s.last_state_change < min_off_time →
      chillerStep min_on_time min_off_time ct tt hy now s = s) ∧
    (s.is_on = true → ct < tt - hy → min_on_time ≤ now - s.last_state_change →
      (chillerStep min_on_time min_off_time ct tt hy now s).is_on = false) ∧
    (s.is_on = false → tt + hy < ct → min_off_time ≤ now - s.last_state_change →
      (chillerStep min_on_time min_off_time ct tt hy now s).is_on = true) := by
  refine ⟨?_, ?_, ?_, ?_, ?_, ?_⟩
  · intro hne
    refine ⟨fun hb => ?_, fun hb => ?_⟩
    · by_contra hc
      exact hne (congrArg ChillerState.is_on (by simp [chillerStep, hb, hc]))
    · by_contra hc
      exact hne (congrArg ChillerState.is_on (by simp [chillerStep, hb, hc]))
  · intro hb hc
    simp [chillerStep, hb, hc]
  · intro hb hc
    simp [chillerStep, hb, hc]
  · intro h1 h2
    cases hb : s.is_on
    · have hc : ¬(tt + hy < ct ∧ min_off_time ≤ now - s.last_state_change) :=
        fun hcc => absurd hcc.2 (not_le.mpr h2)
      simp [chillerStep, hb, hc]
    · have hc : ¬(ct < tt - hy ∧ min_on_time ≤ now - s.last_state_change) :=
        fun hcc => absurd hcc.2 (not_le.mpr h1)
      simp [chillerStep, hb, hc]
  · intro hb h1 h2
    simp [chillerStep, hb, h1, h2]
  · intro hb h1 h2
    simp [chillerStep, hb, h1, h2]

/-- C4: get_reading reports NOT CONNECTED exactly when the raw
register's fault bit (bit 0) is set or the computed resistance
(raw >> 1) / 32768 * reference_resistance is below 10 ohms or above
400 ohms, and on any such fault it returns no temperature and leaves the
moving-average buffer unchanged; in particular resistances of 0, 5 and
450 ohms yield NOT CONNECTED while 150 ohms yields OK. -/
theorem rtd_fault_gating :
    (∀ (ref : ℚ) (f : ℚ → Option ℚ) (raw : ℕ) (h : List ℚ),
      ((get_reading ref f raw h).2.1 = ReadingStatus.notConnected ↔
        raw &&& 1 ≠ 0 ∨ resistance ref raw < 10 ∨ 400 < resistance ref raw)) ∧
    (∀ (ref : ℚ) (f : ℚ → Option ℚ) (raw : ℕ) (h : List ℚ),
      (raw &&& 1 ≠ 0 ∨ resistance ref raw < 10 ∨ 400 < resistance ref raw) →
      get_reading ref f raw h = (none, ReadingStatus.notConnected, h)) ∧
    (∀ (f : ℚ → Option ℚ) (h : List ℚ),
      resistance 430 0 = 0 ∧ (get_reading 430 f 0 h).2.1 = ReadingStatus.notConnected) ∧
    (∀ (f : ℚ → Option ℚ) (h : List ℚ),
      resistance 10 32768 = 5 ∧ (get_reading 10 f 32768 h).2.1 = ReadingStatus.notConnected) ∧
    (∀ (f : ℚ → Option ℚ) (h : List ℚ),
      resistance 900 32768 = 450 ∧
        (get_reading 900 f 32768 h).2.1 = ReadingStatus.notConnected) ∧
    (∀ (t : ℚ) (h : List ℚ),
      resistance 300 32768 = 150 ∧
        (get_reading 300 (fun _ => some t) 32768 h).2.1 = ReadingStatus.ok) := by
  refine ⟨?_, ?_, ?_, ?_, ?_, ?_⟩
  · intro ref f raw h
    by_cases hc : raw &&& 1 ≠ 0 ∨ resistance ref raw < 10 ∨ 400 < resistance ref raw
    · refine iff_of_true ?_ hc
      simp only [get_reading]
      rw [if_pos hc]
    · refine iff_of_false ?_ hc
      simp only [get_reading]
      rw [if_neg hc]
      cases f (resistance ref raw) <;> simp
  · intro ref f raw h hc
    simp only [get_reading]
    rw [if_pos hc]
  · intro f h
    have hres : resistance 430 0 = 0 := by norm_num [resistance]
    refine ⟨hres, ?_⟩
    simp only [get_reading]
    rw [if_pos (Or.inr (Or.inl (by rw [hres]; norm_num)))]
  · intro f h
    have hres : resistance 10 32768 = 5 := by
      rw [resistance, show (32768 : ℕ) >>> 1 = 16384 from by decide]
      norm_num
    refine ⟨hres, ?_⟩
    simp only [get_reading]
    rw [if_pos (Or.inr (Or.inl (by rw [hres]; norm_num)))]
  · intro f h
    have hres : resistance 900 32768 = 450 := by
      rw [resistance, show (32768 : ℕ) >>> 1 = 16384 from by decide]
      norm_num
    refine ⟨hres, ?_⟩
    simp only [get_reading]
    rw [if_pos (Or.inr (Or.inr (by rw [hres]; norm_num)))]
  · intro t h
    have hres : resistance 300 32768 = 150 := by
      rw [resistance, show (32768 : ℕ) >>> 1 = 16384 from by decide]
      norm_num
    refine ⟨hres, ?_⟩
    simp only [get_reading]
    rw [if_neg (by rw [hres]; norm_num)]

/-- C6: for non-empty equal-length duty and target lists, the dynamic
glycol target is max(min_glycol_temp, f(max_cool, lowest_target)) with
max_cool the maximum cooling duty and lowest_target the minimum over the
entire fermenter target list (the or-True filter keeps every target):
max_cool = 0 gives lowest_target + 5, 0 < max_cool < 30 gives
lowest_target - 2, 30 <= max_cool < 70 gives lowest_target - 4,
max_cool >= 70 gives lowest_target - base_offset; the result never falls
below min_glycol_temp. -/
theorem dynamic_glycol_target_spec (cooling_duties fermenter_targets : List ℚ)
    (min_glycol_temp base_offset m lo : ℚ)
    (hne : cooling_duties ≠ [])
    (hlen : cooling_duties.length = fermenter_targets.length)
    (hmax : pyMax cooling_duties = some m)
    (hmin : pyMin fermenter_targets = some lo) :
    (m = 0 → calculate_dynamic_glycol_target cooling_duties fermenter_targets
        min_glycol_temp base_offset = some (max min_glycol_temp (lo + 5))) ∧
    (0 < m → m < 30 → calculate_dynamic_glycol_target cooling_duties fermenter_targets
        min_glycol_temp base_offset = some (max min_glycol_temp (lo - 2))) ∧
    (30 ≤ m → m < 70 → calculate_dynamic_glycol_target cooling_duties fermenter_targets
        min_glycol_temp base_offset = some (max min_glycol_temp (lo - 4))) ∧
    (70 ≤ m → calculate_dynamic_glycol_target cooling_duties fermenter_targets
        min_glycol_temp base_offset = some (max min_glycol_temp (lo - base_offset))) ∧
    (∀ r, calculate_dynamic_glycol_target cooling_duties fermenter_targets
        min_glycol_temp base_offset = some r → min_glycol_temp ≤ r) := by
  simp only [calculate_dynamic_glycol_target, hmax, activeTargets_eq, hmin]
  refine ⟨?_, ?_, ?_, ?_, ?_⟩
  · intro h0
    rw [if_pos h0]
  · intro h1 h2
    rw [if_neg (ne_of_gt h1), if_pos h2]
  · intro h1 h2
    rw [if_neg (fun hm => by rw [hm] at h1; linarith), if_neg (not_lt.mpr h1), if_pos h2]
  · intro h1
    rw [if_neg (fun hm => by rw [hm] at h1; linarith),
      if_neg (not_lt.mpr (by linarith)), if_neg (not_lt.mpr h1)]
  · intro r hr
    split_ifs at hr <;>
      (rw [Option.some_inj] at hr; rw [← hr]; exact le_max_left _ _)

/-- C6 witness: duties [0, 50] and targets [18, 20] with the default
minimum -5 and offset 5 fall in the moderate-cooling band, so the target
is max(-5, 18 - 4). -/
theorem dynamic_glycol_target_spec_witness :
    calculate_dynamic_glycol_target [0, 50] [18, 20] (-5) 5 = some (max (-5) (18 - 4)) := by
  refine (dynamic_glycol_target_spec [0, 50] [18, 20] (-5) 5 50 18 (by simp) (by simp)
    ?_ ?_).2.2.1 (by norm_num) (by norm_num)
  · show some (max (0:ℚ) 50) = some 50
    rw [max_eq_right (by norm_num)]
  · show some (min (18:ℚ) 20) = some 18
    rw [min_eq_left (by norm_num)]

/-- C9 (amended): the duty scheduler's should_be_on and the profile
evaluator read but never modify their state, so two successive calls
with identical inputs and unchanged time return identical outputs; the
PID compute is not like that: its state update (integral accumulation
and last_error) makes the second of two identical back-to-back calls
generally return a different output. -/
theorem repeat_call_outputs :
    (∀ (s : DutyState) (duty now : ℚ),
      (dutyCall (dutyCall s duty now).2 duty now).1 = (dutyCall s duty now).1) ∧
    (∀ (steps : List Step) (elapsed : ℚ),
      calculate_current_step steps elapsed = calculate_current_step steps elapsed) ∧
    ((pidCompute 20 (1/2) 5 (-100) 100 20 18 0
        (pidCompute 20 (1/2) 5 (-100) 100 20 18 0 pidReset).2).1 ≠
      (pidCompute 20 (1/2) 5 (-100) 100 20 18 0 pidReset).1) := by
  refine ⟨fun s duty now => rfl, fun steps elapsed => rfl, ?_⟩
  have h1 : pidCompute 20 (1/2) 5 (-100) 100 20 18 0 pidReset =
      (51, ⟨2, 2, some 0⟩) := by
    norm_num [pidCompute, pidReset, max_def, min_def, Prod.ext_iff]
  have h2 : (pidCompute 20 (1/2) 5 (-100) 100 20 18 0 (⟨2, 2, some 0⟩ : PIDState)).1 = 42 := by
    norm_num [pidCompute, max_def, min_def]
  rw [h1]
  rw [show ((51 : ℚ), (⟨2, 2, some 0⟩ : PIDState)).2 = (⟨2, 2, some 0⟩ : PIDState) from rfl, h2]
  norm_num

/-- C9 counterexample: from the reset state, the compute call with
setpoint 20 and measurement 18 at time 0 returns 51, and repeating the
identical call immediately (time unchanged) returns 42: the claim that
repeated identical compute calls produce identical outputs fails. -/
theorem pid_compute_not_idempotent :
    (pidCompute 20 (1/2) 5 (-100) 100 20 18 0 pidReset).1 = 51 ∧
    (pidCompute 20 (1/2) 5 (-100) 100 20 18 0
      (pidCompute 20 (1/2) 5 (-100) 100 20 18 0 pidReset).2).1 = 42 := by
  have h1 : pidCompute 20 (1/2) 5 (-100) 100 20 18 0 pidReset =
      (51, ⟨2, 2, some 0⟩) := by
    norm_num [pidCompute, pidReset, max_def, min_def, Prod.ext_iff]
  constructor
  · rw [h1]
  · rw [h1]
    show (pidCompute 20 (1/2) 5 (-100) 100 20 18 0 (⟨2, 2, some 0⟩ : PIDState)).1 = 42
    norm_num [pidCompute, max_def, min_def]

/-- C10: when the evaluator resolves a time inside a step's ramp phase
(positive ramp_hours and time-in-step below it), the returned target is
the linear interpolation from the previous step's target rounded to one
decimal place; in the step's hold phase, at an instantaneous marker, and
past the schedule end, the returned target is the step's stored
target_temp with no rounding applied. -/
theorem profile_ramp_rounding (elapsed : ℚ) (step : Step) (rest : List Step)
    (prevT : Option ℚ) (i : ℕ) (cum : ℚ) :
    (¬(step.duration_hours = 0 ∧ step.ramp_hours = 0) →
      elapsed < cum + (step.duration_hours + step.ramp_hours) →
      0 < step.ramp_hours → elapsed - cum < step.ramp_hours →
      calcStepAux elapsed (step :: rest) prevT i cum =
        some (i, pyRound1 (prevT.getD step.target_temp +
            (step.target_temp - prevT.getD step.target_temp) *
              ((elapsed - cum) / step.ramp_hours)),
          cum + (step.duration_hours + step.ramp_hours) - elapsed)) ∧
    (¬(step.duration_hours = 0 ∧ step.ramp_hours = 0) →
      elapsed < cum + (step.duration_hours + step.ramp_hours) →
      ¬(0 < step.ramp_hours ∧ elapsed - cum < step.ramp_hours) →
      calcStepAux elapsed (step :: rest) prevT i cum =
        some (i, step.target_temp,
          cum + (step.duration_hours + step.ramp_hours) - elapsed)) ∧
    (step.duration_hours = 0 → step.ramp_hours = 0 → elapsed ≤ cum →
      calcStepAux elapsed (step :: rest) prevT i cum = some (i, step.target_temp, 0)) ∧
    (∀ (steps : List Step) (lastStep : Step), steps.getLast? = some lastStep →
      calcStepAux elapsed steps none 0 0 = none →
      calculate_current_step steps elapsed =
        some (steps.length - 1, lastStep.target_temp, 0)) := by
  refine ⟨?_, ?_, ?_, ?_⟩
  · intro hni hlt hr htin
    simp only [calcStepAux]
    rw [if_neg hni, if_pos hlt, if_pos ⟨hr, htin⟩]
  · intro hni hlt hnr
    simp only [calcStepAux]
    rw [if_neg hni, if_pos hlt, if_neg hnr]
  · intro hd hr hle
    simp only [calcStepAux]
    rw [if_pos ⟨hd, hr⟩, if_pos hle]
  · intro steps lastStep hlast haux
    cases steps with
    | nil => simp at hlast
    | cons a as =>
      simp [calculate_current_step, haux, hlast]

/-- C10 witness: for the Crash step of the test profile 6 hours into its
ramp the target is the rounded interpolation, and in its hold phase the
stored 2.0 is returned unrounded. -/
theorem profile_ramp_rounding_witness :
    calcStepAux 78 [⟨"Crash", 2, 48, 12⟩] (some 18) 2 72 =
      some (2, pyRound1 ((some (18:ℚ)).getD 2 + (2 - (some (18:ℚ)).getD 2) * ((78 - 72) / 12)),
        72 + (48 + 12) - 78) ∧
    calcStepAux 100 [⟨"Crash", 2, 48, 12⟩] (some 18) 2 72 =
      some (2, 2, 72 + (48 + 12) - 100) := by
  constructor
  · exact (profile_ramp_rounding 78 ⟨"Crash", 2, 48, 12⟩ [] (some 18) 2 72).1
      (by norm_num) (by norm_num) (by norm_num) (by norm_num)
  · exact (profile_ramp_rounding 100 ⟨"Crash", 2, 48, 12⟩ [] (some 18) 2 72).2.1
      (by norm_num) (by norm_num) (by norm_num)

/-- The control section never changes a vessel's active flag. -/
theorem controlPhase_active_eq (mode : ControlMode) (Kp Ki Kd hyst : ℚ)
    (glycol : Option ℚ) (now : ℚ) (v : VesselState) :
    (controlPhase mode Kp Ki Kd hyst glycol now v).1.active = v.active := by
  simp only [controlPhase]
  split
  · cases mode <;> simp [inactiveUpdate]
  · by_cases ha : v.active = false
    · rw [if_pos ha]
      cases mode <;> simp [inactiveUpdate]
    · rw [if_neg ha]
      by_cases hm : mode = ControlMode.pid
      · rw [if_pos hm]
        split_ifs <;> rfl
      · rw [if_neg hm]
        split_ifs <;> rfl

/-- A vessel that is inactive when the control section runs takes the
skip branch. -/
theorem controlPhase_of_inactive (mode : ControlMode) (Kp Ki Kd hyst : ℚ)
    (glycol : Option ℚ) (now : ℚ) (v : VesselState) (h : v.active = false) :
    controlPhase mode Kp Ki Kd hyst glycol now v = (inactiveUpdate mode v, 0) := by
  simp only [controlPhase]
  split
  · rfl
  · rw [if_pos h]

/-- The skip branch forces both actuators off, preserves the active
flag, and resets the PID state exactly in pid mode. -/
theorem inactiveUpdate_fields (mode : ControlMode) (v : VesselState) :
    (inactiveUpdate mode v).heater = false ∧ (inactiveUpdate mode v).solenoid = false ∧
      (mode = ControlMode.pid → (inactiveUpdate mode v).pid = pidReset) := by
  cases mode <;> simp [inactiveUpdate]

/-- C5 (amended): after a control tick, every vessel whose active flag
is false (including vessels deactivated this tick by a sensor fault) has
its heater off and cooling valve closed in either control mode; its PID
state is reset to (integral 0, last_error 0, last_time none) when the
control mode is pid — in bangbang mode the tick leaves the PID state
untouched. -/
theorem inactive_vessel_outputs_off_after_tick (mode : ControlMode) (Kp Ki Kd hyst : ℚ)
    (glycol : Option ℚ) (now : ℚ) (sr : Option (Option ℚ × ReadingStatus)) (v : VesselState) :
    (vesselTick mode Kp Ki Kd hyst glycol now sr v).1.active = false →
      (vesselTick mode Kp Ki Kd hyst glycol now sr v).1.heater = false ∧
      (vesselTick mode Kp Ki Kd hyst glycol now sr v).1.solenoid = false ∧
      (mode = ControlMode.pid →
        (vesselTick mode Kp Ki Kd hyst glycol now sr v).1.pid = pidReset) := by
  intro h
  have hw : (readPhase sr v).active = false := by
    rw [← controlPhase_active_eq mode Kp Ki Kd hyst glycol now (readPhase sr v)]
    exact h
  have ht : vesselTick mode Kp Ki Kd hyst glycol now sr v =
      (inactiveUpdate mode (readPhase sr v), 0) := by
    rw [vesselTick, controlPhase_of_inactive mode Kp Ki Kd hyst glycol now (readPhase sr v) hw]
  rw [ht]
  exact inactiveUpdate_fields mode (readPhase sr v)

/-- C5 witness: in pid mode a vessel marked inactive by this tick's
sensor fault comes out with heater off, valve closed and PID state
reset. -/
theorem inactive_vessel_outputs_off_after_tick_witness :
    (vesselTick ControlMode.pid 20 (1/2) 5 (1/2) none 0
        (some (none, ReadingStatus.notConnected)) exVessel).1.heater = false ∧
    (vesselTick ControlMode.pid 20 (1/2) 5 (1/2) none 0
        (some (none, ReadingStatus.notConnected)) exVessel).1.solenoid = false ∧
    (ControlMode.pid = ControlMode.pid →
      (vesselTick ControlMode.pid 20 (1/2) 5 (1/2) none 0
          (some (none, ReadingStatus.notConnected)) exVessel).1.pid = pidReset) :=
  inactive_vessel_outputs_off_after_tick ControlMode.pid 20 (1/2) 5 (1/2) none 0
    (some (none, ReadingStatus.notConnected)) exVessel
    (by simp [vesselTick, readPhase, controlPhase, inactiveUpdate, exVessel])

/-- C5 counterexample: in bangbang mode the same faulted tick leaves the
vessel inactive with its stale PID state (integral 5) not reset, so the
claim's clause that inactive vessels get a PID reset regardless of the
control mode fails. -/
theorem inactive_vessel_pid_kept_in_bangbang :
    (vesselTick ControlMode.bangbang 20 (1/2) 5 (1/2) none 0
        (some (none, ReadingStatus.notConnected)) exVessel).1.active = false ∧
    (vesselTick ControlMode.bangbang 20 (1/2) 5 (1/2) none 0
        (some (none, ReadingStatus.notConnected)) exVessel).1.heater = false ∧
    (vesselTick ControlMode.bangbang 20 (1/2) 5 (1/2) none 0
        (some (none, ReadingStatus.notConnected)) exVessel).1.solenoid = false ∧
    (vesselTick ControlMode.bangbang 20 (1/2) 5 (1/2) none 0
        (some (none, ReadingStatus.notConnected)) exVessel).1.pid ≠ pidReset := by
  refine ⟨?_, ?_, ?_, ?_⟩ <;>
    simp [vesselTick, readPhase, controlPhase, inactiveUpdate, exVessel, pidReset,
      PIDState.mk.injEq]
